import Mathlib

/-!
Verification of the resilient drafting pipeline of `main.py` (the
chat-with-echo service) against its design document.

The Python source is shallowly embedded: every function of the pipeline
(`scenario_label`, `tone_label`, `make_fallback_drafts`,
`looks_like_prompt_instruction`, `normalize_prompt_intent`,
`build_user_content`, `call_gemini`, `extract_json`, the `/chat` handler)
becomes an executable Lean definition, translated directly from the source.
Python string primitives (`str.strip`, `str.split`, `str.lower`, truthiness,
`in`), the two regular expressions of the source, and `json.loads` are
embedded as executable functions with the library semantics the source
relies on.  The external generation backend (`requests.post` inside
`call_gemini`) is the one external collaborator: its outcome is a parameter
(`GeminiNet`) covering network failure, non-200 status, an undecodable
body, and a decoded list of part texts.
-/

/-! ## Python string primitives -/

/-- Python whitespace for `str.strip` / `str.split` / `\s` (ASCII range). -/
def isPyWs (c : Char) : Bool :=
  c == ' ' || c == '\t' || c == '\n' || c == '\r' || c == '\x0b' || c == '\x0c'

/-- `str.lstrip()` on a character list. -/
def lstripL (l : List Char) : List Char := l.dropWhile isPyWs

/-- `str.rstrip()` on a character list. -/
def rstripL (l : List Char) : List Char := (l.reverse.dropWhile isPyWs).reverse

/-- `str.strip()` on a character list. -/
def stripL (l : List Char) : List Char := rstripL (lstripL l)

/-- Python `str.strip()`. -/
def pyStrip (s : String) : String := String.mk (stripL s.toList)

/-- Python `s or d` for strings: the empty string is falsy. -/
def pyOrS (s d : String) : String := if s = "" then d else s

/-- Python `v or d` for an optional string: `None` and `""` are falsy. -/
def pyOrOpt (v : Option String) (d : String) : String :=
  match v with
  | none => d
  | some s => if s = "" then d else s

/-- Helper for `pySplit`: walk the characters, `acc` holds the current token
reversed. -/
def pySplitAux : List Char → List Char → List String
  | [], acc => if acc.isEmpty then [] else [String.mk acc.reverse]
  | c :: cs, acc =>
    if isPyWs c then
      if acc.isEmpty then pySplitAux cs [] else String.mk acc.reverse :: pySplitAux cs []
    else pySplitAux cs (c :: acc)

/-- Python `str.split()` with no argument: split on whitespace runs, no empty
tokens. -/
def pySplit (s : String) : List String := pySplitAux s.toList []

/-- Whether `sub` occurs in `l` as a contiguous sublist. -/
def containsSubList (sub : List Char) : List Char → Bool
  | [] => sub.isEmpty
  | c :: t => sub.isPrefixOf (c :: t) || containsSubList sub t

/-- Python `sub in s` for strings (substring containment). -/
def pyIn (sub s : String) : Bool :=
  if sub.isEmpty then true else containsSubList sub.toList s.toList

/-- Python `str.lower()` (ASCII case mapping, as `Char.toLower`). -/
def pyLower (s : String) : String := String.mk (s.toList.map Char.toLower)

/-- Python `str.startswith(pre)`. -/
def pyStartsWith (s pre : String) : Bool := pre.toList.isPrefixOf s.toList

/-- Python `str.endswith(post)`. -/
def pyEndsWith (s post : String) : Bool := post.toList.isSuffixOf s.toList

/-- Python `str.replace(pat, rep)` on character lists: replace every
occurrence, left to right, non-overlapping (`pat` non-empty here; fuel is
the list length). -/
def replaceL (pat rep : List Char) : Nat → List Char → List Char
  | _, [] => []
  | 0, l => l
  | fuel + 1, c :: t =>
    if pat.isPrefixOf (c :: t) then
      rep ++ replaceL pat rep fuel ((c :: t).drop pat.length)
    else c :: replaceL pat rep fuel t

/-- Python `s.replace(pat, rep)` for a non-empty pattern. -/
def pyReplace (s pat rep : String) : String :=
  String.mk (replaceL pat.toList rep.toList (s.toList.length + 1) s.toList)

/-! ## Style Resolver (`scenario_label`, `tone_label`, main.py lines 70-90) -/

/-- `scenario_label`: normalize a free-form scenario string to a closed label
by substring containment on the lowercased, stripped input. -/
def scenario_label (scenario : String) : String :=
  let s := pyLower (pyStrip (pyOrS scenario "general"))
  if pyIn "professor" s then "talking to a professor"
  else if pyIn "friend" s then "messaging a friend"
  else if pyIn "stranger" s then "replying to a stranger"
  else "general"

/-- `tone_label`: normalize a free-form tone string to a closed label. -/
def tone_label (tone : String) : String :=
  let t := pyLower (pyStrip (pyOrS tone "Calm"))
  if pyIn "friendly" t then "Friendly"
  else if pyIn "polite" t then "Polite"
  else if pyIn "direct" t then "Direct"
  else "Calm"

/-! ## Intent Classifier (`looks_like_prompt_instruction`, lines 236-249) -/

/-- The fixed tuple of instruction/intent starters of
`looks_like_prompt_instruction`. -/
def instruction_starters : List String :=
  ["write a ", "rewrite ", "draft ", "generate ", "help me ",
   "ask ", "follow up", "follow-up", "followup",
   "say no", "decline", "turn down",
   "apologise", "apologize",
   "start friendly", "clarify",
   "please write", "can you write"]

/-- `looks_like_prompt_instruction`: true when the lowercased stripped message
starts with one of the fixed starters, or has at most 6 whitespace-separated
tokens. -/
def looks_like_prompt_instruction (message : String) : Bool :=
  let m := pyLower (pyStrip (pyOrS message ""))
  instruction_starters.any (fun p => pyStartsWith m p) || decide ((pySplit m).length ≤ 6)

/-! ## The `ask ... about ...` regular expression

Both `normalize_prompt_intent` (line 255) and `make_fallback_drafts`
(line 175) run `re.search(r"\bask\b.*\babout\b\s+(.+)$", m, re.IGNORECASE)`.
The embedding below reproduces `re.search` semantics for this pattern:
the match starts at the leftmost whole-word `ask` (case-insensitive, `\b` =
`\w`/non-`\w` boundary with `\w = [A-Za-z0-9_]`); the greedy `.*` (which
cannot cross a newline) picks the rightmost whole-word `about` reachable
from it; `\s+` then takes the maximal whitespace run, backtracking so that
`(.+)$` keeps at least one character, where `(.+)` cannot cross a newline
and `$` matches at the end of the string or just before one final newline. -/

/-- `\w` of the `re` module, ASCII range. -/
def isWordChar (c : Char) : Bool := c.isAlphanum || c == '_'

/-- Whether the word `w` (given lowercase) occurs at index `i` of `cs` with a
`\b` boundary on both sides, comparing case-insensitively. -/
def wordAt (w : List Char) (cs : List Char) (i : Nat) : Bool :=
  (((cs.drop i).take w.length).map Char.toLower == w) &&
  (i == 0 || !isWordChar (cs.getD (i - 1) ' ')) &&
  (i + w.length ≥ cs.length || !isWordChar (cs.getD (i + w.length) ' '))

/-- `(.+)$` anchored at the start of `t` (greedy, `.` not matching a newline,
`$` at the end or just before a final newline): the captured group. -/
def dotPlusDollar (t : List Char) : Option (List Char) :=
  if t.isEmpty then none
  else if t.contains '\n' then
    if t.getLast? == some '\n' && !t.dropLast.contains '\n' && !t.dropLast.isEmpty then
      some t.dropLast
    else none
  else some t

/-- `\s+(.+)$` anchored at the start of `t`: `\s+` takes `w` characters of the
leading whitespace run, greedily from the longest down, until `(.+)$`
matches what remains. -/
def tailMatchGo (t : List Char) : Nat → Option (List Char)
  | 0 => none
  | w + 1 =>
    match dotPlusDollar (t.drop (w + 1)) with
    | some g => some g
    | none => tailMatchGo t w

/-- `\s+(.+)$` anchored at the start of `t`. -/
def tailMatch (t : List Char) : Option (List Char) :=
  tailMatchGo t (t.takeWhile isPyWs).length

/-- No newline among characters `a ≤ k < b` of `cs` (the span `.*` must
cross). -/
def noNewlineBetween (cs : List Char) (a b : Nat) : Bool :=
  !((cs.drop a).take (b - a)).contains '\n'

/-- The match attempt with `\bask\b` fixed at index `i`: the greedy `.*`
reaches the rightmost viable `\babout\b`, backtracking leftwards. -/
def askAboutFrom (cs : List Char) (i : Nat) : Option (List Char) :=
  let js := ((List.range (cs.length + 1)).filter (fun j =>
    decide (i + 3 ≤ j) && wordAt ['a', 'b', 'o', 'u', 't'] cs j
      && noNewlineBetween cs (i + 3) j)).reverse
  js.findSome? (fun j => tailMatch (cs.drop (j + 5)))

/-- `re.search(r"\bask\b.*\babout\b\s+(.+)$", s, re.IGNORECASE)`: the captured
group of the leftmost match, `none` when the pattern does not match. -/
def askAboutSearch (s : String) : Option String :=
  let cs := s.toList
  let is := (List.range (cs.length + 1)).filter (fun i => wordAt ['a', 's', 'k'] cs i)
  (is.findSome? (fun i => askAboutFrom cs i)).map String.mk

/-- `.strip().rstrip(".!?")` applied to the captured group (the topic). -/
def topicOf (g : String) : String :=
  String.mk (((pyStrip g).toList.reverse.dropWhile
    (fun c => c == '.' || c == '!' || c == '?')).reverse)

/-! ## Intent Normalizer (`normalize_prompt_intent`, lines 252-296) -/

/-- `normalize_prompt_intent`: ordered pattern rules turning a terse intention
into one explicit drafting instruction.  `scenario` and `tone` are accepted
as in the source but unused by every rule. -/
def normalize_prompt_intent (message scenario tone : String) : String :=
  let m := pyStrip (pyOrS message "")
  match askAboutSearch m with
  | some g =>
    let topic := topicOf g
    "Draft a ready-to-send message the user will send. Ask about " ++ topic ++
      ". If details are missing, use ONE placeholder [your question]. " ++
      "Do NOT ask the user what they want."
  | none =>
    if pyStartsWith (pyLower m) "follow up" || pyStartsWith (pyLower m) "follow-up"
        || pyStartsWith (pyLower m) "followup" then
      "Draft a calm follow-up message the user will send. " ++
        "Use ONE placeholder [what I'm following up on]. " ++
        "Do NOT ask the user questions."
    else if pyStartsWith (pyLower m) "say no" || pyStartsWith (pyLower m) "decline"
        || pyStartsWith (pyLower m) "turn down" then
      "Draft a polite decline message the user will send. " ++
        "Use ONE placeholder [request]. Optionally add one short alternative. " ++
        "Do NOT ask the user questions."
    else if pyStartsWith (pyLower m) "apologise" || pyStartsWith (pyLower m) "apologize"
        || pyStartsWith (pyLower m) "clarify" then
      "Draft a brief apology + clarification request message. " ++
        "Use ONE placeholder [confusing part]. " ++
        "Do NOT ask the user questions."
    else if pyStartsWith (pyLower m) "start friendly" then
      "Draft a friendly opener then lead into [main point]. " ++
        "Do NOT ask the user questions."
    else
      "Draft a ready-to-send message. " ++
        "If details are missing, use ONE placeholder [details]. " ++
        "Do NOT ask the user questions."

/-! ## Fallback Draft Generator (`make_fallback_drafts`, lines 96-203) -/

/-- The `{reply, options}` record both the fallback generator and the `/chat`
handler produce. -/
structure DraftResult where
  reply : String
  options : List String
deriving DecidableEq, Repr

/-- The greeting chosen from the scenario label (lines 104-119). -/
def fallback_greet (sc : String) : String :=
  if sc = "talking to a professor" then "Hello Professor, "
  else if sc = "replying to a stranger" then "Hi, "
  else if sc = "messaging a friend" then "Hey, "
  else "Hi, "

/-- The `please` tone tweak (lines 121-133). -/
def fallback_please (tl : String) : String :=
  if tl = "Direct" then ""
  else if tl = "Polite" then " please"
  else if tl = "Friendly" then ""
  else ""

/-- The `soften` tone tweak (lines 121-133). -/
def fallback_soften (tl : String) : String :=
  if tl = "Direct" then ""
  else if tl = "Polite" then " Thank you!"
  else if tl = "Friendly" then " Thanks!"
  else ""

/-- `make_fallback_drafts`: the deterministic offline generator.  The branch
checks run on the stripped lowercased intent `it`; the `ask ... about`
regular expression runs on the raw `intent` as in the source (line 175). -/
def make_fallback_drafts (intent scenario tone : String) : DraftResult :=
  let sc := scenario_label scenario
  let tl := tone_label tone
  let greet := fallback_greet sc
  let please := fallback_please tl
  let soften := fallback_soften tl
  let it := pyLower (pyStrip (pyOrS intent ""))
  if pyStartsWith it "follow up" || pyStartsWith it "follow-up" || pyStartsWith it "followup" then
    { reply := pyStrip (greet ++ "just following up on [what I'm following up on]. No rush—whenever you have a moment." ++ soften),
      options := [
        pyStrip (greet ++ "quick follow-up on [what I'm following up on]. Whenever you're free is totally fine." ++ soften),
        pyStrip (greet ++ "checking in about [what I'm following up on]. Let me know when you get a chance." ++ soften),
        pyStrip (greet ++ "just wanted to follow up on [what I'm following up on]. Thanks! ")].take 3 }
  else if pyStartsWith it "say no" || pyStartsWith it "decline" || pyStartsWith it "turn down" then
    { reply := pyStrip (greet ++ "thanks for asking, but I can't [request] right now. Could we do [alternative] instead?" ++ soften),
      options := [
        pyStrip (greet ++ "I really appreciate it, but I won't be able to [request]. Maybe [alternative]?" ++ soften),
        pyStrip (greet ++ "I can't commit to [request] at the moment. Happy to help with [alternative]." ++ soften),
        pyStrip (greet ++ "thanks—I'll have to pass on [request]. Hope that's okay." ++ soften)].take 3 }
  else if pyStartsWith it "apologise" || pyStartsWith it "apologize" || pyStartsWith it "clarify" then
    { reply := pyStrip (greet ++ "sorry—could you clarify [confusing part]" ++ please ++ "?" ++ soften),
      options := [
        pyStrip (greet ++ "sorry, I might have misunderstood. Could you clarify [confusing part]" ++ please ++ "?" ++ soften),
        pyStrip (greet ++ "just to make sure I've got it right—what did you mean by [confusing part]?" ++ soften),
        pyStrip (greet ++ "could you clarify [confusing part]" ++ please ++ "?" ++ soften)].take 3 }
  else if pyStartsWith it "start friendly" then
    { reply := pyStrip (greet ++ "hope you're doing well! About [main point]—could you help me with [details]" ++ please ++ "?" ++ soften),
      options := [
        pyStrip (greet ++ "hope you're having a good day. Quick question about [main point]" ++ please ++ "." ++ soften),
        pyStrip (greet ++ "just wanted to reach out about [main point]. Could you share [details]" ++ please ++ "?" ++ soften),
        pyStrip (greet ++ "hope all's good! Can I ask about [main point]" ++ please ++ "?" ++ soften)].take 3 }
  else
    match askAboutSearch intent with
    | some g =>
      let topic := topicOf g
      { reply := pyStrip (greet ++ "I had a quick question about " ++ topic ++ ". Could you clarify [your question]" ++ please ++ "?" ++ soften),
        options := [
          pyStrip (greet ++ "could I ask about " ++ topic ++ "? I'm unsure about [your question]." ++ soften),
          pyStrip (greet ++ "quick question about " ++ topic ++ ": [your question]." ++ soften),
          pyStrip (greet ++ "I was reviewing " ++ topic ++ " and wanted to check [your question]" ++ please ++ "." ++ soften)].take 3 }
    | none =>
      if pyStartsWith it "ask" then
        { reply := pyStrip (greet ++ "I had a quick question: [your question]." ++ soften),
          options := [
            pyStrip (greet ++ "quick question—[your question]." ++ soften),
            pyStrip (greet ++ "could I ask [your question]" ++ please ++ "?" ++ soften),
            pyStrip (greet ++ "just wanted to check: [your question]." ++ soften)].take 3 }
      else
        { reply := pyStrip (greet ++ "[your message]" ++ soften),
          options := [
            pyStrip (greet ++ "[your message]" ++ soften),
            pyStrip (greet ++ "[your message]." ++ soften),
            pyStrip (greet ++ "[your message]" ++ soften)].take 3 }

/-! ## Instruction Builder (`build_user_content`, lines 299-334) -/

/-- `build_user_content`: the user instruction sent to the generation
backend.  For `chat` mode it branches on the Intent Classifier; any other
`mode` string picks a rewrite directive, with a generic default for a string
outside the three rewrite modes. -/
def build_user_content (message mode scenario tone : String) : String :=
  let message := pyStrip (pyOrS message "")
  if mode = "chat" then
    if looks_like_prompt_instruction message then
      let normalized := normalize_prompt_intent message scenario tone
      pyStrip ("\nTask:\nWrite the exact message the user should SEND to the other person.\n\nUser intention / instruction:\n" ++ normalized ++ "\n")
    else
      pyStrip ("\nTask:\nWrite what the user should send as a reply to the message below.\n\nMessage the user RECEIVED:\n" ++ message ++ "\n")
  else
    let task :=
      if mode = "rewrite_shorter" then "Rewrite the user's draft to be shorter without changing meaning."
      else if mode = "rewrite_politer" then "Rewrite the user's draft to be more polite (not overly apologetic)."
      else if mode = "rewrite_confident" then "Rewrite the user's draft to sound more confident and clear."
      else "Rewrite the user's draft."
    pyStrip (task ++ "\n\nUser's DRAFT message to rewrite:\n" ++ message ++ "\n")

/-! ## JSON values and `json.loads`

`extract_json` (lines 377-404) leans on `json.loads`.  `Json` models the
decoded Python value; objects are association lists built with dict-insert
semantics (a repeated key overwrites in place).  The parser below follows
the JSON grammar as Python's strict decoder reads it: the four whitespace
characters, `null`/`true`/`false`, numbers (kept as their literal text),
strings with the standard escapes, arrays and objects; a control character
inside a string, an unknown escape, a leading-zero integer part or trailing
garbage reject the document. -/

inductive Json where
  | null : Json
  | bool (b : Bool) : Json
  | num (raw : String) : Json
  | str (s : String) : Json
  | arr (elems : List Json) : Json
  | obj (fields : List (String × Json)) : Json

/-- Python dict insertion: replace the value of an existing key in place,
else append. -/
def objInsert (fields : List (String × Json)) (k : String) (v : Json) :
    List (String × Json) :=
  match fields with
  | [] => [(k, v)]
  | (k', v') :: rest =>
    if k' = k then (k', v) :: rest else (k', v') :: objInsert rest k v

/-- `d.get(k)` on the association list of an object. -/
def fieldsGet (fields : List (String × Json)) (k : String) : Option Json :=
  match fields with
  | [] => none
  | (k', v) :: rest => if k' = k then some v else fieldsGet rest k

/-- `obj.get(k)` where `obj` is the dict `extract_json` produced. -/
def jsonGetJ : Json → String → Option Json
  | .obj fields, k => fieldsGet fields k
  | _, _ => none

/-- JSON whitespace (` `, tab, newline, carriage return). -/
def isJsonWs (c : Char) : Bool := c == ' ' || c == '\t' || c == '\n' || c == '\r'

/-- Hexadecimal digit value. -/
def hexVal (c : Char) : Option Nat :=
  if c.isDigit then some (c.toNat - 48)
  else if 'a' ≤ c && c ≤ 'f' then some (c.toNat - 87)
  else if 'A' ≤ c && c ≤ 'F' then some (c.toNat - 70)
  else none

/-- A JSON string body, the opening quote already consumed: the decoded
string and the rest of the input. -/
def parseJsonStr : Nat → List Char → List Char → Option (String × List Char)
  | 0, _, _ => none
  | _ + 1, [], _ => none
  | fuel + 1, c :: cs, acc =>
    if c == '"' then some (String.mk acc.reverse, cs)
    else if c == '\\' then
      match cs with
      | [] => none
      | e :: cs' =>
        if e == '"' then parseJsonStr fuel cs' ('"' :: acc)
        else if e == '\\' then parseJsonStr fuel cs' ('\\' :: acc)
        else if e == '/' then parseJsonStr fuel cs' ('/' :: acc)
        else if e == 'b' then parseJsonStr fuel cs' ('\x08' :: acc)
        else if e == 'f' then parseJsonStr fuel cs' ('\x0c' :: acc)
        else if e == 'n' then parseJsonStr fuel cs' ('\n' :: acc)
        else if e == 'r' then parseJsonStr fuel cs' ('\r' :: acc)
        else if e == 't' then parseJsonStr fuel cs' ('\t' :: acc)
        else if e == 'u' then
          match cs' with
          | h1 :: h2 :: h3 :: h4 :: rest =>
            match hexVal h1, hexVal h2, hexVal h3, hexVal h4 with
            | some a, some b, some c3, some d =>
              parseJsonStr fuel rest (Char.ofNat (((a * 16 + b) * 16 + c3) * 16 + d) :: acc)
            | _, _, _, _ => none
          | _ => none
        else none
    else if c.toNat < 32 then none
    else parseJsonStr fuel cs (c :: acc)

/-- A JSON number literal starting at the head of the input: its raw text and
the rest (sign, integer part without a leading zero, optional fraction and
exponent). -/
def parseJsonNum (cs : List Char) : Option (String × List Char) :=
  let (sign, cs1) := if cs.headD ' ' == '-' then (['-'], cs.drop 1) else ([], cs)
  let intPart := cs1.takeWhile Char.isDigit
  if intPart.isEmpty then none
  else if intPart.length > 1 && intPart.headD ' ' == '0' then none
  else
    let cs2 := cs1.drop intPart.length
    let (frac, cs3) :=
      if cs2.headD ' ' == '.' then
        let ds := (cs2.drop 1).takeWhile Char.isDigit
        if ds.isEmpty then ([' '], cs2) else ('.' :: ds, cs2.drop (ds.length + 1))
      else ([], cs2)
    if frac.headD '.' == ' ' then none
    else
      let (expo, cs4) :=
        if cs3.headD ' ' == 'e' || cs3.headD ' ' == 'E' then
          let e := cs3.headD ' '
          let (es, rest0) :=
            if (cs3.drop 1).headD ' ' == '+' || (cs3.drop 1).headD ' ' == '-' then
              ([cs3.getD 1 ' '], cs3.drop 2)
            else ([], cs3.drop 1)
          let ds := rest0.takeWhile Char.isDigit
          if ds.isEmpty then ([' '], cs3) else (e :: es ++ ds, rest0.drop ds.length)
        else ([], cs3)
      if expo.headD 'e' == ' ' then none
      else some (String.mk (sign ++ intPart ++ frac ++ expo), cs4)

mutual

/-- A JSON value at the head of the input (leading whitespace skipped
here). -/
def parseVal : Nat → List Char → Option (Json × List Char)
  | 0, _ => none
  | fuel + 1, cs =>
    match cs.dropWhile isJsonWs with
    | [] => none
    | c :: cs' =>
      if c == '\x7b' then
        match cs'.dropWhile isJsonWs with
        | '\x7d' :: rest => some (.obj [], rest)
        | rest => (parseMembers fuel rest []).map (fun (fs, r) => (.obj fs, r))
      else if c == '[' then
        match cs'.dropWhile isJsonWs with
        | ']' :: rest => some (.arr [], rest)
        | rest => (parseElems fuel rest []).map (fun (es, r) => (.arr es, r))
      else if c == '"' then
        (parseJsonStr (cs'.length + 1) cs' []).map (fun (s, r) => (.str s, r))
      else if c == 't' then
        if cs'.take 3 == ['r', 'u', 'e'] then some (.bool true, cs'.drop 3) else none
      else if c == 'f' then
        if cs'.take 4 == ['a', 'l', 's', 'e'] then some (.bool false, cs'.drop 4) else none
      else if c == 'n' then
        if cs'.take 3 == ['u', 'l', 'l'] then some (.null, cs'.drop 3) else none
      else if c == '-' || c.isDigit then
        (parseJsonNum (c :: cs')).map (fun (s, r) => (.num s, r))
      else none

/-- The members of an object after `{`, first key expected at the head
(whitespace already skipped); `acc` holds the pairs parsed so far. -/
def parseMembers : Nat → List Char → List (String × Json) →
    Option (List (String × Json) × List Char)
  | 0, _, _ => none
  | fuel + 1, cs, acc =>
    match cs with
    | '"' :: cs1 =>
      match parseJsonStr (cs1.length + 1) cs1 [] with
      | none => none
      | some (k, cs2) =>
        match cs2.dropWhile isJsonWs with
        | ':' :: cs3 =>
          match parseVal fuel cs3 with
          | none => none
          | some (v, cs4) =>
            let acc' := objInsert acc k v
            match cs4.dropWhile isJsonWs with
            | ',' :: cs5 => parseMembers fuel (cs5.dropWhile isJsonWs) acc'
            | '\x7d' :: cs5 => some (acc', cs5)
            | _ => none
        | _ => none
    | _ => none

/-- The elements of an array after `[`, first element expected at the head
(whitespace already skipped); `acc` holds the reversed elements so far. -/
def parseElems : Nat → List Char → List Json → Option (List Json × List Char)
  | 0, _, _ => none
  | fuel + 1, cs, acc =>
    match parseVal fuel cs with
    | none => none
    | some (v, cs1) =>
      match cs1.dropWhile isJsonWs with
      | ',' :: cs2 => parseElems fuel cs2 (v :: acc)
      | ']' :: cs2 => some ((v :: acc).reverse, cs2)
      | _ => none

end

/-- `json.loads`: the whole text must be one JSON document, whitespace
allowed around it. -/
def json_loads (s : String) : Option Json :=
  let cs := s.toList
  match parseVal (cs.length + 1) cs with
  | none => none
  | some (v, rest) => if (rest.dropWhile isJsonWs).isEmpty then some v else none

/-! ## Structured Output Extractor (`extract_json`, lines 377-404) -/

/-- `re.search(r"\x7b.*\x7d", text, re.DOTALL)`: with `.` matching anything,
the match runs from the first opening brace to the last closing brace, and
exists when that closing brace stands after the first opening one. -/
def braceSpan (cs : List Char) : Option (List Char) :=
  match cs.findIdx? (fun c => c == '\x7b') with
  | none => none
  | some i =>
    let tail := cs.drop i
    match tail.reverse.findIdx? (fun c => c == '\x7d') with
    | none => none
    | some r =>
      let len := tail.length - r
      if len ≥ 2 then some (tail.take len) else none

/-- The lazy group of `(.+?)"` under `re.DOTALL`: the characters up to the
first quote strictly after the start, which must exist and leave the group
non-empty. -/
def lazyToQuote (cs : List Char) : Option (List Char) :=
  match cs with
  | [] => none
  | _ :: rest =>
    match rest.findIdx? (fun c => c == '"') with
    | none => none
    | some idx => some (cs.take (idx + 1))

/-- The anchored attempt of `"reply"\s*:\s*"(.+?)"` at the head of `cs`. -/
def matchReplyAt (cs : List Char) : Option (List Char) :=
  if cs.take 7 == ['"', 'r', 'e', 'p', 'l', 'y', '"'] then
    match (cs.drop 7).dropWhile isPyWs with
    | ':' :: t2 =>
      match t2.dropWhile isPyWs with
      | '"' :: t4 => lazyToQuote t4
      | _ => none
    | _ => none
  else none

/-- `re.search` for `"reply"\s*:\s*"(.+?)"` with `re.DOTALL`: the group of
the leftmost successful start. -/
def replyFieldSearch : List Char → Option (List Char)
  | [] => none
  | c :: cs =>
    match matchReplyAt (c :: cs) with
    | some g => some g
    | none => replyFieldSearch cs

/-- The salvage strategy of `extract_json` (lines 397-404): regex-scan for a
`"reply": "..."` field, strip it, rewrite the `\n` and `\t` escape pairs to
a space and `\"` to a quote, and wrap the result with empty options. -/
def salvage (text : String) : Json :=
  let reply0 :=
    match replyFieldSearch text.toList with
    | some g => pyStrip (String.mk g)
    | none => ""
  let reply := pyStrip (pyReplace (pyReplace (pyReplace reply0 "\\n" " ") "\\t" " ") "\\\"" "\"")
  if reply = "" then Json.obj [("reply", Json.str ""), ("options", Json.arr [])]
  else Json.obj [("reply", Json.str reply), ("options", Json.arr [])]

/-- `extract_json`: parse the whole stripped text as a JSON object, else the
first brace-to-last-brace span, else salvage a `"reply"` field. -/
def extract_json (text : String) : Json :=
  let text := pyStrip (pyOrS text "")
  match json_loads text with
  | some (Json.obj fields) => Json.obj fields
  | _ =>
    match braceSpan text.toList with
    | some block =>
      match json_loads (pyStrip (String.mk block)) with
      | some (Json.obj fields) => Json.obj fields
      | _ => salvage text
    | none => salvage text

/-! ## Python truthiness, `str()` and iteration over decoded values

The handler runs `(obj.get("reply") or "").strip()` and
`[str(x).strip() for x in (obj.get("options") or [])]` on the decoded
value; these need Python truthiness, `str()` and iterability. -/

/-- Python truthiness of a number literal: zero iff every mantissa digit is
zero. -/
def numIsZero (raw : String) : Bool :=
  let noSign := if raw.startsWith "-" then raw.drop 1 else raw
  (noSign.toList.takeWhile (fun c => c != 'e' && c != 'E')).all
    (fun c => c == '0' || c == '.')

/-- Python truthiness of a decoded JSON value. -/
def jsonTruthy : Json → Bool
  | .null => false
  | .bool b => b
  | .num raw => !numIsZero raw
  | .str s => !(s == "")
  | .arr elems => !elems.isEmpty
  | .obj fields => !fields.isEmpty

mutual

/-- Python `repr` of a decoded JSON value (strings quoted), for `str()` of
containers. -/
def pyRepr : Json → String
  | .null => "None"
  | .bool true => "True"
  | .bool false => "False"
  | .num raw => raw
  | .str s => "'" ++ s ++ "'"
  | .arr elems => "[" ++ pyReprList elems ++ "]"
  | .obj fields => "\x7b" ++ pyReprFields fields ++ "\x7d"

/-- Comma-separated `repr`s of list elements. -/
def pyReprList : List Json → String
  | [] => ""
  | [x] => pyRepr x
  | x :: xs => pyRepr x ++ ", " ++ pyReprList xs

/-- Comma-separated `repr`s of dict items. -/
def pyReprFields : List (String × Json) → String
  | [] => ""
  | [(k, v)] => "'" ++ k ++ "': " ++ pyRepr v
  | (k, v) :: fs => "'" ++ k ++ "': " ++ pyRepr v ++ ", " ++ pyReprFields fs

end

/-- Python `str()` of a decoded JSON value. -/
def pyStr : Json → String
  | .str s => s
  | v => pyRepr v

/-- Python iteration over a decoded JSON value: lists yield elements,
strings yield one-character strings, dicts yield their keys; anything else
raises `TypeError`. -/
def pyIter : Json → Except Unit (List Json)
  | .arr elems => .ok elems
  | .str s => .ok (s.toList.map (fun c => Json.str (String.mk [c])))
  | .obj fields => .ok (fields.map (fun kv => Json.str kv.1))
  | _ => .error ()

/-! ## Generation Client (`call_gemini`, lines 338-374) -/

/-- The outcome of the one `requests.post` to the generation backend: the
network call raises, or a response arrives with a status code and (for a
decodable body) the text parts of the first candidate. -/
inductive GeminiNet where
  | unreachable : GeminiNet
  | response (status : Nat) (partsTexts : Option (List String)) : GeminiNet

/-- The exceptions `call_gemini` can raise (each an `HTTPException(500)` or a
`requests`/decode error in the source). -/
inductive GemError where
  | missingKey : GemError
  | unreachable : GemError
  | httpError : GemError
  | undecodable : GemError
  | emptyText : GemError
deriving DecidableEq

/-- `call_gemini`: raises when `GEMINI_API_KEY` is absent, the post fails,
the status is not 200, the body is undecodable, or the joined text is empty;
otherwise returns the text.  The instruction strings do not influence the
modeled outcome; `net` stands for the external service's behavior. -/
def call_gemini (system_text user_text : String) (apiKey : Option String)
    (net : GeminiNet) : Except GemError String :=
  match apiKey with
  | none => .error .missingKey
  | some _ =>
    match net with
    | .unreachable => .error .unreachable
    | .response status partsTexts =>
      if status ≠ 200 then .error .httpError
      else
        match partsTexts with
        | none => .error .undecodable
        | some ts =>
          let text := pyStrip (String.join (ts.map (fun t => pyOrS t "")))
          if text = "" then .error .emptyText else .ok text

/-! ## The `/chat` handler (lines 407-453) -/

/-- `(obj.get("reply") or "").strip()`: a missing or falsy field gives `""`,
a truthy string is stripped, a truthy non-string raises
`AttributeError`. -/
def getReplyStr (obj : Json) : Except Unit String :=
  match jsonGetJ obj "reply" with
  | none => .ok ""
  | some v =>
    if !jsonTruthy v then .ok ""
    else
      match v with
      | .str s => .ok (pyStrip s)
      | _ => .error ()

/-- `[str(x).strip() for x in (obj.get("options") or []) if str(x).strip()][:3]`:
a missing or falsy field gives `[]`, a non-iterable truthy value raises
`TypeError`. -/
def getOptionsStrs (obj : Json) : Except Unit (List String) :=
  match jsonGetJ obj "options" with
  | none => .ok []
  | some v =>
    if !jsonTruthy v then .ok []
    else
      match pyIter v with
      | .error e => .error e
      | .ok xs =>
        .ok (((xs.map (fun x => pyStrip (pyStr x))).filter (fun s => !(s == ""))).take 3)

/-- The fixed assistant-voice phrase list of the Quality Gate (line 437). -/
def bad_phrases : List String :=
  ["happy to help", "go ahead and ask", "what would you like", "what are your questions"]

/-- The Quality Gate's rejection test (line 438): empty reply, or any bad
phrase contained in the lowercased reply. -/
def qualityReject (reply : String) : Bool :=
  (reply == "") || bad_phrases.any (fun p => pyIn p (pyLower reply))

/-- The body of the `try` block after `call_gemini` returned text `raw`
(lines 431-448): extract, post-process, gate, pad.  An exception while
post-processing (a truthy non-string `reply`, a non-iterable truthy
`options`) lands in the `except` branch, which returns the fallback
drafts. -/
def processAfterText (msg scenario tone raw : String) : DraftResult :=
  let fb := make_fallback_drafts msg scenario tone
  let obj := extract_json raw
  match getReplyStr obj with
  | .error _ => { reply := fb.reply, options := fb.options }
  | .ok reply =>
    match getOptionsStrs obj with
    | .error _ => { reply := fb.reply, options := fb.options }
    | .ok options =>
      if qualityReject reply then { reply := fb.reply, options := fb.options }
      else
        let options :=
          if options.length < 3 then
            (options ++ fb.options.filter (fun x => !options.contains x)).take 3
          else options
        { reply := reply, options := options }

/-- The request model's `mode` values (`Mode = Literal[...]`, line 36). -/
inductive Mode where
  | chat : Mode
  | rewrite_shorter : Mode
  | rewrite_politer : Mode
  | rewrite_confident : Mode
deriving DecidableEq

/-- The literal string of a `Mode` value. -/
def Mode.toStr : Mode → String
  | .chat => "chat"
  | .rewrite_shorter => "rewrite_shorter"
  | .rewrite_politer => "rewrite_politer"
  | .rewrite_confident => "rewrite_confident"

/-- `ChatRequest` (lines 39-43) after validation: `message` required, the
optional fields hold `None` or a value of the declared type. -/
structure ChatRequest where
  message : String
  tone : Option String := some "Calm"
  scenario : Option String := some "general"
  mode : Option Mode := some Mode.chat

/-- The canned `USE_MOCK` response (lines 415-423). -/
def mock_response : DraftResult :=
  { reply := "Hi, just following up on [what I'm following up on]. No rush—whenever you have a moment.",
    options := [
      "Hi, quick follow-up on [what I'm following up on]. Whenever you're free is totally fine.",
      "Hi, checking in about [what I'm following up on]. Let me know when you get a chance.",
      "Hi, just wanted to follow up on [what I'm following up on]. Thanks!"] }

/-- The `/chat` handler.  `useMock` is the `USE_MOCK` environment flag,
`apiKey` the `GEMINI_API_KEY` value, `net` the backend's behavior.  Every
exception inside the `try` (including the `HTTPException`s `call_gemini`
raises) is caught by `except Exception` and answered with the fallback
drafts, so the handler always returns a `DraftResult`. -/
def chat (req : ChatRequest) (useMock : Bool) (apiKey : Option String)
    (net : GeminiNet) : DraftResult :=
  let tone := pyOrOpt req.tone "Calm"
  let scenario := pyOrOpt req.scenario "general"
  let mode := match req.mode with | none => Mode.chat | some m => m
  let msg := pyStrip (pyOrS req.message "")
  if useMock then mock_response
  else
    let system_text := "" -- build_system_instruction's output does not influence the modeled call
    let user_text := build_user_content msg mode.toStr scenario tone
    match call_gemini system_text user_text apiKey net with
    | .error _ =>
      let fb := make_fallback_drafts msg scenario tone
      { reply := fb.reply, options := fb.options }
    | .ok raw => processAfterText msg scenario tone raw

/-! ## Request validation of the `mode` field

FastAPI validates the JSON body against `ChatRequest` before the handler
runs: `mode: Optional[Mode]` with `Mode = Literal["chat", "rewrite_shorter",
"rewrite_politer", "rewrite_confident"]` accepts an absent field (default
`"chat"`), an explicit `null`, or one of the four literal strings; any
other value is rejected with a 422 validation error and the handler never
runs. -/

/-- The `Mode` literal named by a string. -/
def Mode.ofString? (s : String) : Option Mode :=
  if s = "chat" then some .chat
  else if s = "rewrite_shorter" then some .rewrite_shorter
  else if s = "rewrite_politer" then some .rewrite_politer
  else if s = "rewrite_confident" then some .rewrite_confident
  else none

/-- Validation of the request body's `mode` field: `none` is a 422
rejection, `some m` the value the handler receives. -/
def validate_mode_field (j : Option Json) : Option (Option Mode) :=
  match j with
  | none => some (some Mode.chat)
  | some Json.null => some none
  | some (Json.str s) =>
    match Mode.ofString? s with
    | some m => some (some m)
    | none => none
  | some _ => none

/-! ## Helper definitions for the verification -/

/-- Every reply and option the fallback generator builds starts with a
greeting, so its first two characters are `He` (from `Hello Professor, ` or
`Hey, `) or `Hi` (from `Hi, `). -/
def goodHead (s : String) : Prop :=
  s.toList.take 2 = ['H', 'e'] ∨ s.toList.take 2 = ['H', 'i']

/-- The `DraftResult` the handler returns for a request whenever the model
path fails (the `except Exception` branch, lines 450-453). -/
def fallback_for (req : ChatRequest) : DraftResult :=
  let fb := make_fallback_drafts (pyStrip (pyOrS req.message ""))
    (pyOrOpt req.scenario "general") (pyOrOpt req.tone "Calm")
  { reply := fb.reply, options := fb.options }

/-! ## Lemmas about the string primitives -/

theorem toList_mk (l : List Char) : (String.mk l).toList = l := rfl

theorem toList_append (s t : String) : (s ++ t).toList = s.toList ++ t.toList := rfl

theorem strAppend_assoc (a b c : String) : (a ++ b) ++ c = a ++ (b ++ c) :=
  congrArg String.mk (List.append_assoc a.toList b.toList c.toList)

theorem dropWhile_self_idem (p : Char → Bool) (l : List Char) :
    List.dropWhile p (List.dropWhile p l) = List.dropWhile p l := by
  induction l with
  | nil => rfl
  | cons c t ih =>
    cases h : p c
    · simp [List.dropWhile_cons, h]
    · simp [List.dropWhile_cons, h, ih]

theorem dropWhile_append_cons (p : Char → Bool) (xs : List Char) (a : Char)
    (l : List Char) (h : p a = false) :
    ∃ ys, List.dropWhile p (xs ++ a :: l) = ys ++ a :: l := by
  induction xs with
  | nil => exact ⟨[], by simp [List.dropWhile_cons, h]⟩
  | cons x xs ih =>
    cases hx : p x
    · exact ⟨x :: xs, by simp [List.dropWhile_cons, hx]⟩
    · obtain ⟨ys, hys⟩ := ih
      exact ⟨ys, by simp [List.dropWhile_cons, hx, hys]⟩

theorem dropWhile_head_false (p : Char → Bool) (l : List Char) :
    List.dropWhile p l = [] ∨ ∃ c t, List.dropWhile p l = c :: t ∧ p c = false := by
  induction l with
  | nil => exact Or.inl rfl
  | cons c t ih =>
    cases hc : p c
    · exact Or.inr ⟨c, t, by simp [List.dropWhile_cons, hc], hc⟩
    · simpa [List.dropWhile_cons, hc] using ih

theorem rstripL_idem (l : List Char) : rstripL (rstripL l) = rstripL l := by
  simp [rstripL, List.reverse_reverse, dropWhile_self_idem]

theorem rstripL_cons (c : Char) (t : List Char) (h : isPyWs c = false) :
    ∃ ys, rstripL (c :: t) = c :: ys := by
  obtain ⟨ys, hys⟩ := dropWhile_append_cons isPyWs t.reverse c [] h
  exact ⟨ys.reverse, by simp [rstripL, List.reverse_cons, hys]⟩

theorem stripL_idem (l : List Char) : stripL (stripL l) = stripL l := by
  unfold stripL
  rcases dropWhile_head_false isPyWs l with h | ⟨c, t, hct, hc⟩
  · simp [lstripL, rstripL, h]
  · have hl : lstripL l = c :: t := hct
    obtain ⟨ys, hys⟩ := rstripL_cons c t hc
    rw [hl, hys]
    have hls : lstripL (c :: ys) = c :: ys := by
      simp [lstripL, List.dropWhile_cons, hc]
    rw [hls, ← hys, rstripL_idem]

theorem take2_stripL (c0 c1 : Char) (t : List Char)
    (h0 : isPyWs c0 = false) (h1 : isPyWs c1 = false) :
    (stripL (c0 :: c1 :: t)).take 2 = [c0, c1] := by
  have hls : lstripL (c0 :: c1 :: t) = c0 :: c1 :: t := by
    simp [lstripL, List.dropWhile_cons, h0]
  obtain ⟨ys, hys⟩ := dropWhile_append_cons isPyWs t.reverse c1 [c0] h1
  unfold stripL
  rw [hls]
  have hrev : (c0 :: c1 :: t).reverse = t.reverse ++ c1 :: [c0] := by simp
  simp [rstripL, hrev, hys]

theorem stripL_ne_nil (l : List Char) (c : Char) (hc : c ∈ l)
    (h : isPyWs c = false) : stripL l ≠ [] := by
  intro hnil
  have hrev : List.dropWhile isPyWs (lstripL l).reverse = [] := by
    have h2 : ((lstripL l).reverse.dropWhile isPyWs).reverse = [] := hnil
    simpa using congrArg List.reverse h2
  have hall : ∀ x ∈ (lstripL l).reverse, isPyWs x = true :=
    List.dropWhile_eq_nil_iff.mp hrev
  have hcin : c ∈ lstripL l := by
    have hsplit := List.takeWhile_append_dropWhile (p := isPyWs) (l := l)
    rcases List.mem_append.mp (by rw [hsplit]; exact hc) with h1 | h2
    · exact absurd (List.mem_takeWhile_imp h1) (by simp [h])
    · exact h2
  have := hall c (List.mem_reverse.mpr hcin)
  simp [h] at this

theorem pyStrip_idem (s : String) : pyStrip (pyStrip s) = pyStrip s := by
  simp [pyStrip, toList_mk, stripL_idem]

theorem pyStrip_ne_empty (s : String) (c : Char) (hc : c ∈ s.toList)
    (h : isPyWs c = false) : pyStrip s ≠ "" := by
  intro he
  have h2 : stripL s.toList = [] := congrArg String.toList he
  exact stripL_ne_nil _ c hc h h2

theorem take2_append (a b : List Char) (c0 c1 : Char) (h : a.take 2 = [c0, c1]) :
    (a ++ b).take 2 = [c0, c1] := by
  have hlen : 2 ≤ a.length := by
    have h2 := congrArg List.length h
    simp [List.length_take] at h2
    omega
  rw [List.take_append_of_le_length hlen, h]

theorem pyStrip_take2_of (s : String) (c0 c1 : Char)
    (hg : s.toList.take 2 = [c0, c1])
    (h0 : isPyWs c0 = false) (h1 : isPyWs c1 = false) :
    (pyStrip s).toList.take 2 = [c0, c1] := by
  have hsplit : s.toList = c0 :: c1 :: s.toList.drop 2 := by
    conv_lhs => rw [← List.take_append_drop 2 s.toList]
    rw [hg]
    rfl
  show (stripL s.toList).take 2 = [c0, c1]
  rw [hsplit]
  exact take2_stripL c0 c1 _ h0 h1

/-! ## Shape lemmas for the Fallback Draft Generator -/

theorem fallback_greet_cases (sc : String) :
    fallback_greet sc = "Hello Professor, " ∨ fallback_greet sc = "Hi, " ∨
      fallback_greet sc = "Hey, " := by
  unfold fallback_greet
  split_ifs <;> simp

theorem goodHead_pyStrip (s : String)
    (h : s.toList.take 2 = ['H', 'e'] ∨ s.toList.take 2 = ['H', 'i']) :
    goodHead (pyStrip s) := by
  rcases h with h | h
  · exact Or.inl (pyStrip_take2_of s 'H' 'e' h rfl rfl)
  · exact Or.inr (pyStrip_take2_of s 'H' 'i' h rfl rfl)

theorem take2_of_greet (x : String) (rest : List Char) :
    ((fallback_greet x).toList ++ rest).take 2 = ['H', 'e'] ∨
      ((fallback_greet x).toList ++ rest).take 2 = ['H', 'i'] := by
  rcases fallback_greet_cases x with h | h | h <;> rw [h]
  · exact Or.inl (take2_append _ _ _ _ (by decide))
  · exact Or.inr (take2_append _ _ _ _ (by decide))
  · exact Or.inl (take2_append _ _ _ _ (by decide))

theorem goodHead_greet (x rest : String) :
    goodHead (pyStrip (fallback_greet x ++ rest)) := by
  apply goodHead_pyStrip
  exact take2_of_greet x rest.toList

theorem branch_ok (r a b c : String)
    (hr : goodHead r) (ha : goodHead a) (hb : goodHead b) (hc : goodHead c) :
    goodHead (DraftResult.mk r ([a, b, c].take 3)).reply ∧
      (DraftResult.mk r ([a, b, c].take 3)).options.length ≤ 3 ∧
      ∀ o ∈ (DraftResult.mk r ([a, b, c].take 3)).options, goodHead o := by
  refine ⟨hr, by simp, ?_⟩
  intro o ho
  simp at ho
  rcases ho with rfl | rfl | rfl <;> assumption

theorem fallback_shape (msg scn tn : String) :
    goodHead (make_fallback_drafts msg scn tn).reply ∧
      (make_fallback_drafts msg scn tn).options.length ≤ 3 ∧
      ∀ o ∈ (make_fallback_drafts msg scn tn).options, goodHead o := by
  unfold make_fallback_drafts
  dsimp only
  split
  · simp only [strAppend_assoc]
    exact branch_ok _ _ _ _ (goodHead_greet _ _) (goodHead_greet _ _)
      (goodHead_greet _ _) (goodHead_greet _ _)
  · split
    · simp only [strAppend_assoc]
      exact branch_ok _ _ _ _ (goodHead_greet _ _) (goodHead_greet _ _)
        (goodHead_greet _ _) (goodHead_greet _ _)
    · split
      · simp only [strAppend_assoc]
        exact branch_ok _ _ _ _ (goodHead_greet _ _) (goodHead_greet _ _)
          (goodHead_greet _ _) (goodHead_greet _ _)
      · split
        · simp only [strAppend_assoc]
          exact branch_ok _ _ _ _ (goodHead_greet _ _) (goodHead_greet _ _)
            (goodHead_greet _ _) (goodHead_greet _ _)
        · split
          · simp only [strAppend_assoc]
            exact branch_ok _ _ _ _ (goodHead_greet _ _) (goodHead_greet _ _)
              (goodHead_greet _ _) (goodHead_greet _ _)
          · split
            · simp only [strAppend_assoc]
              exact branch_ok _ _ _ _ (goodHead_greet _ _) (goodHead_greet _ _)
                (goodHead_greet _ _) (goodHead_greet _ _)
            · simp only [strAppend_assoc]
              exact branch_ok _ _ _ _ (goodHead_greet _ _) (goodHead_greet _ _)
                (goodHead_greet _ _) (goodHead_greet _ _)

theorem goodHead_ne_empty (s : String) (h : goodHead s) : s ≠ "" := by
  intro he
  rw [he] at h
  rcases h with h | h <;> simp at h

theorem goodHead_mem_H (s : String) (h : goodHead s) : 'H' ∈ s.toList := by
  have hm : 'H' ∈ s.toList.take 2 := by
    rcases h with h | h <;> rw [h] <;> simp
  exact List.take_subset 2 s.toList hm

theorem goodHead_pyStrip_ne (s : String) (h : goodHead s) : pyStrip s ≠ "" :=
  pyStrip_ne_empty s 'H' (goodHead_mem_H s h) rfl

theorem goodHead_ne_happy (s : String) (h : goodHead s) :
    s ≠ "Happy to help! What would you like to ask?" := by
  intro he
  rw [he] at h
  rcases h with h | h <;> simp at h

/-! ## Shape lemmas for the handler's post-processing -/

theorem getReplyStr_shape (obj : Json) (r : String)
    (h : getReplyStr obj = Except.ok r) : r = "" ∨ ∃ s, r = pyStrip s := by
  unfold getReplyStr at h
  rcases hg : jsonGetJ obj "reply" with _ | v <;> rw [hg] at h
  · exact Or.inl (by cases h; rfl)
  · dsimp only at h
    cases ht : jsonTruthy v <;> simp only [ht] at h
    · simp at h
      exact Or.inl h.symm
    · simp at h
      cases v with
      | str s => exact Or.inr ⟨s, by cases h; rfl⟩
      | null => cases h
      | bool b => cases h
      | num raw => cases h
      | arr es => cases h
      | obj fs => cases h

theorem getOptionsStrs_shape (obj : Json) (os : List String)
    (h : getOptionsStrs obj = Except.ok os) :
    os.length ≤ 3 ∧ ∀ o ∈ os, o ≠ "" := by
  unfold getOptionsStrs at h
  rcases hg : jsonGetJ obj "options" with _ | v <;> rw [hg] at h
  · cases h
    exact ⟨by simp, by simp⟩
  · dsimp only at h
    cases ht : jsonTruthy v <;> simp only [ht] at h
    · simp at h
      subst h
      exact ⟨by simp, by simp⟩
    · simp at h
      rcases hi : pyIter v with e | xs <;> rw [hi] at h
      · cases h
      · simp at h
        subst h
        constructor
        · exact List.length_take_le 3 _
        · intro o ho
          have ho2 := List.take_subset 3 _ ho
          have := List.of_mem_filter ho2
          simpa using this

theorem qualityReject_false_facts (reply : String)
    (h : qualityReject reply = false) :
    reply ≠ "" ∧ pyIn "happy to help" (pyLower reply) = false := by
  unfold qualityReject at h
  rw [Bool.or_eq_false_iff] at h
  obtain ⟨h1, h2⟩ := h
  refine ⟨by simpa using h1, ?_⟩
  rw [List.any_eq_false] at h2
  have := h2 "happy to help" (by simp [bad_phrases])
  simpa using this

theorem happy_in_lower :
    pyIn "happy to help" (pyLower "Happy to help! What would you like to ask?") = true := by
  decide

theorem processAfterText_shape (msg scn tn raw : String) :
    pyStrip (processAfterText msg scn tn raw).reply ≠ "" ∧
      (processAfterText msg scn tn raw).options.length ≤ 3 ∧
      (∀ o ∈ (processAfterText msg scn tn raw).options, o ≠ "") ∧
      (processAfterText msg scn tn raw).reply ≠ "Happy to help! What would you like to ask?" := by
  obtain ⟨hfr, hfl, hfo⟩ := fallback_shape msg scn tn
  unfold processAfterText
  dsimp only
  rcases hr : getReplyStr (extract_json raw) with e | reply
  · exact ⟨goodHead_pyStrip_ne _ hfr, hfl,
      fun o ho => goodHead_ne_empty o (hfo o ho), goodHead_ne_happy _ hfr⟩
  · rcases ho : getOptionsStrs (extract_json raw) with e | options
    · exact ⟨goodHead_pyStrip_ne _ hfr, hfl,
        fun o ho2 => goodHead_ne_empty o (hfo o ho2), goodHead_ne_happy _ hfr⟩
    · dsimp only
      split
      · exact ⟨goodHead_pyStrip_ne _ hfr, hfl,
          fun o ho2 => goodHead_ne_empty o (hfo o ho2), goodHead_ne_happy _ hfr⟩
      · rename_i hq
        have hq' : qualityReject reply = false := Bool.eq_false_iff.mpr hq
        obtain ⟨hne, hhappy⟩ := qualityReject_false_facts reply hq'
        obtain ⟨holen, homem⟩ := getOptionsStrs_shape _ _ ho
        have hps : pyStrip reply = reply := by
          rcases getReplyStr_shape _ _ hr with h0 | ⟨s, hs⟩
          · exact absurd h0 hne
          · rw [hs, pyStrip_idem]
        refine ⟨?_, ?_, ?_, ?_⟩
        · rw [hps]
          exact hne
        · dsimp only
          split
          · exact List.length_take_le 3 _
          · exact holen
        · dsimp only
          split
          · intro o ho2
            have ho3 := List.take_subset 3 _ ho2
            rcases List.mem_append.mp ho3 with hl | hrt
            · exact homem o hl
            · exact goodHead_ne_empty o (hfo o (List.mem_of_mem_filter hrt))
          · exact homem
        · intro he
          dsimp only at he
          rw [he] at hhappy
          rw [happy_in_lower] at hhappy
          cases hhappy

theorem chat_shape (req : ChatRequest) (useMock : Bool) (apiKey : Option String)
    (net : GeminiNet) :
    pyStrip (chat req useMock apiKey net).reply ≠ "" ∧
      (chat req useMock apiKey net).options.length ≤ 3 ∧
      (∀ o ∈ (chat req useMock apiKey net).options, o ≠ "") ∧
      (chat req useMock apiKey net).reply ≠ "Happy to help! What would you like to ask?" := by
  unfold chat
  dsimp only
  split
  · exact ⟨by decide, by decide, by decide, by decide⟩
  · split
    · obtain ⟨hfr, hfl, hfo⟩ := fallback_shape (pyStrip (pyOrS req.message ""))
        (pyOrOpt req.scenario "general") (pyOrOpt req.tone "Calm")
      exact ⟨goodHead_pyStrip_ne _ hfr, hfl,
        fun o ho => goodHead_ne_empty o (hfo o ho), goodHead_ne_happy _ hfr⟩
    · exact processAfterText_shape _ _ _ _

set_option maxRecDepth 16000

/-! ## The claims -/

/-- C1: for every request — any valid or absent `mode`, any (empty or
missing) `tone` and `scenario`, any mock flag, key and backend behavior —
`chat` returns a `DraftResult` whose reply is non-empty after trimming and
whose options list has at most 3 entries; being a total Lean function into
`DraftResult`, the embedded handler surfaces no error, and on each upstream
failure (network error, non-200 status, undecodable body) the result is
exactly the offline fallback generator's output. -/
theorem C1_chat_always_usable :
    (∀ (req : ChatRequest) (useMock : Bool) (apiKey : Option String) (net : GeminiNet),
      pyStrip (chat req useMock apiKey net).reply ≠ "" ∧
        (chat req useMock apiKey net).options.length ≤ 3) ∧
    (∀ (req : ChatRequest) (key : String),
      chat req false (some key) GeminiNet.unreachable = fallback_for req ∧
        chat req false (some key) (GeminiNet.response 500 none) = fallback_for req ∧
        chat req false (some key) (GeminiNet.response 200 none) = fallback_for req) := by
  constructor
  · intro req useMock apiKey net
    exact ⟨(chat_shape req useMock apiKey net).1, (chat_shape req useMock apiKey net).2.1⟩
  · intro req key
    exact ⟨rfl, rfl, rfl⟩

/-- C2 counterexample: with no `GEMINI_API_KEY` configured (and `USE_MOCK`
off), a chat request does not fail with a surfaced error: the
`HTTPException` raised inside `call_gemini` is caught by the handler's
`except Exception`, and the caller receives the fallback `DraftResult`. -/
theorem C2_missing_key_cex :
    chat (ChatRequest.mk "hi" none none none) false none GeminiNet.unreachable =
      { reply := "Hi, [your message]",
        options := ["Hi, [your message]", "Hi, [your message].", "Hi, [your message]"] } := rfl

/-- C2 (amended): a missing credential makes `call_gemini` raise (the
`HTTPException(500, "Missing GEMINI_API_KEY...")` of line 341), but the
error is fatal for nothing: the handler's catch-all swallows it and every
such request is answered with the fallback drafts, never an error. -/
theorem C2_missing_key_swallowed :
    (∀ (sys usr : String) (net : GeminiNet),
      call_gemini sys usr none net = Except.error GemError.missingKey) ∧
    (∀ (req : ChatRequest) (net : GeminiNet),
      chat req false none net = fallback_for req) :=
  ⟨fun _ _ _ => rfl, fun _ _ => rfl⟩

/-- C3 counterexample: a request whose `mode` field holds an invalid string
is rejected by the pydantic `Literal` validation (a 422, modeled as `none`)
— it is not processed by the handler at all. -/
theorem C3_invalid_mode_cex :
    validate_mode_field (some (Json.str "rewrite_formal")) = none := rfl

/-- C3 (amended): an invalid `mode` value in a request is rejected at
validation by the `Literal` type; only `build_user_content` itself, called
directly with a string outside the four modes, silently falls into the
generic rewrite branch (task `Rewrite the user's draft.`). -/
theorem C3_invalid_mode (m : String) (h1 : m ≠ "chat") (h2 : m ≠ "rewrite_shorter")
    (h3 : m ≠ "rewrite_politer") (h4 : m ≠ "rewrite_confident") :
    validate_mode_field (some (Json.str m)) = none ∧
      ∀ msg scn tn : String,
        build_user_content msg m scn tn =
          pyStrip ("Rewrite the user's draft." ++ "\n\nUser's DRAFT message to rewrite:\n" ++
            pyStrip (pyOrS msg "") ++ "\n") := by
  constructor
  · unfold validate_mode_field Mode.ofString?
    simp [h1, h2, h3, h4]
  · intro msg scn tn
    unfold build_user_content
    simp [h1, h2, h3, h4]

/-- C3 witness: the amended claim at the concrete invalid mode
`rewrite_formal` and message `hello there`. -/
theorem C3_invalid_mode_witness :
    validate_mode_field (some (Json.str "rewrite_formal")) = none ∧
      build_user_content "hello there" "rewrite_formal" "general" "Calm" =
        pyStrip ("Rewrite the user's draft." ++ "\n\nUser's DRAFT message to rewrite:\n" ++
          pyStrip (pyOrS "hello there" "") ++ "\n") := by
  have h := C3_invalid_mode "rewrite_formal" (by decide) (by decide) (by decide) (by decide)
  exact ⟨h.1, h.2 "hello there" "general" "Calm"⟩

/-- C4 counterexample: for the input with no parseable object and an
embedded `"reply": "Hello\nthere"` fragment (the `\n` being the two-character
escape sequence), the salvage strategy recovers the reply `Hello there` —
the escape is replaced by a space, and the recovered reply contains no
literal newline, contrary to the claim. -/
theorem C4_salvage_cex :
    extract_json "\"reply\": \"Hello\\nthere\" broken json" =
      Json.obj [("reply", Json.str "Hello there"), ("options", Json.arr [])] ∧
    ("Hello there").toList.contains '\n' = false := ⟨rfl, rfl⟩

/-- C4 (amended): when both JSON strategies fail, the salvage strategy
regex-scans for a `"reply": "..."` field, replaces the `\n` and `\t` escape
sequences by a single space each (and `\"` by a quote), and returns
`{reply: salvaged text, options: []}`; the recovered reply for the
`Hello\nthere` fragment is `Hello there`, with a space where the escape
stood and no literal newline; with no recoverable field the result is
`{reply: "", options: []}`. -/
theorem C4_salvage_space :
    extract_json "\"reply\": \"Hello\\nthere\" broken json" =
      Json.obj [("reply", Json.str "Hello there"), ("options", Json.arr [])] ∧
    pyIn " " "Hello there" = true ∧
    ("Hello there").toList.contains '\n' = false ∧
    extract_json "\"reply\": \"a\\tb\" junk" =
      Json.obj [("reply", Json.str "a b"), ("options", Json.arr [])] ∧
    extract_json "no object and no reply field" =
      Json.obj [("reply", Json.str ""), ("options", Json.arr [])] :=
  ⟨rfl, rfl, rfl, rfl, rfl⟩

/-- C5 counterexample: on the pure fallback path (backend unreachable), the
default branch of `make_fallback_drafts` returns an options list whose
first and third entries are the same string — the options of a returned
`DraftResult` are not deduplicated. -/
theorem C5_duplicate_options :
    (chat (ChatRequest.mk "hello" none none none) false (some "k")
        GeminiNet.unreachable).options =
      ["Hi, [your message]", "Hi, [your message].", "Hi, [your message]"] ∧
    ¬ (chat (ChatRequest.mk "hello" none none none) false (some "k")
        GeminiNet.unreachable).options.Nodup := by
  exact ⟨rfl, by decide⟩

/-- C5 (amended): in every `DraftResult` the handler returns, `options` is
an ordered sequence of at most 3 non-empty strings; deduplication is not
guaranteed (the merge step only skips fallback options equal to an already
present model option, and the fallback generator itself can emit duplicate
options). -/
theorem C5_options_shape (req : ChatRequest) (useMock : Bool)
    (apiKey : Option String) (net : GeminiNet) :
    (chat req useMock apiKey net).options.length ≤ 3 ∧
      ∀ o ∈ (chat req useMock apiKey net).options, o ≠ "" :=
  ⟨(chat_shape req useMock apiKey net).2.1, (chat_shape req useMock apiKey net).2.2.1⟩

/-- C6: whenever the extracted reply is rejected by the Quality Gate (empty,
or containing one of the fixed assistant-voice phrases, which is what
`qualityReject` tests), the handler's result is the Fallback Generator's
reply and options wholesale; and in every case the returned reply is never
the assistant-voiced string `Happy to help! What would you like to ask?`. -/
theorem C6_quality_gate :
    (∀ (msg scn tn raw r : String),
      getReplyStr (extract_json raw) = Except.ok r → qualityReject r = true →
        processAfterText msg scn tn raw =
          { reply := (make_fallback_drafts msg scn tn).reply,
            options := (make_fallback_drafts msg scn tn).options }) ∧
    (∀ (req : ChatRequest) (useMock : Bool) (apiKey : Option String) (net : GeminiNet),
      (chat req useMock apiKey net).reply ≠ "Happy to help! What would you like to ask?") := by
  constructor
  · intro msg scn tn raw r hr hq
    unfold processAfterText
    dsimp only
    rw [hr]
    dsimp only
    rcases ho : getOptionsStrs (extract_json raw) with e | os
    · rfl
    · dsimp only
      split
      · rfl
      · rename_i hq2
        exact absurd hq hq2
  · intro req useMock apiKey net
    exact (chat_shape req useMock apiKey net).2.2.2

/-- C6 witness: the gate fires on the concrete backend output whose reply is
exactly `Happy to help! What would you like to ask?`, and the result is the
fallback wholesale. -/
theorem C6_quality_gate_witness :
    processAfterText "hi" "general" "Calm"
        "\x7b\"reply\": \"Happy to help! What would you like to ask?\"\x7d" =
      { reply := (make_fallback_drafts "hi" "general" "Calm").reply,
        options := (make_fallback_drafts "hi" "general" "Calm").options } :=
  C6_quality_gate.1 "hi" "general" "Calm"
    "\x7b\"reply\": \"Happy to help! What would you like to ask?\"\x7d"
    "Happy to help! What would you like to ask?" rfl rfl

/-- C7: for the request `message="follow up"`, `tone="Polite"`,
`scenario="professor"` with the backend unreachable (any key), the returned
reply starts with `Hello Professor, `, contains the placeholder
`[what I'm following up on]`, and ends with ` Thank you!` — greeting from
the scenario table, body with placeholder, soften-suffix from the tone
table. -/
theorem C7_follow_up_professor_polite (apiKey : Option String) :
    pyStartsWith (chat (ChatRequest.mk "follow up" (some "Polite") (some "professor")
        (some Mode.chat)) false apiKey GeminiNet.unreachable).reply "Hello Professor, " = true ∧
    pyIn "[what I'm following up on]" (chat (ChatRequest.mk "follow up" (some "Polite")
        (some "professor") (some Mode.chat)) false apiKey GeminiNet.unreachable).reply = true ∧
    pyEndsWith (chat (ChatRequest.mk "follow up" (some "Polite") (some "professor")
        (some Mode.chat)) false apiKey GeminiNet.unreachable).reply " Thank you!" = true := by
  have h : chat (ChatRequest.mk "follow up" (some "Polite") (some "professor")
      (some Mode.chat)) false apiKey GeminiNet.unreachable =
      fallback_for (ChatRequest.mk "follow up" (some "Polite") (some "professor")
        (some Mode.chat)) := by
    cases apiKey <;> rfl
  rw [h]
  exact ⟨by decide, by decide, by decide⟩

/-- C8 counterexample: the message `ask about` contains `ask` followed later
by `about`, yet the first rule does not win: the regex requires a non-empty
topic after whitespace following `about`, so the message falls to the
default rule, whose instruction references `[details]` and not
`[your question]`. -/
theorem C8_ask_about_cex :
    pyIn "ask" "ask about" = true ∧ pyIn "about" "ask about" = true ∧
    normalize_prompt_intent "ask about" "general" "Calm" =
      "Draft a ready-to-send message. If details are missing, use ONE placeholder [details]. Do NOT ask the user questions." ∧
    pyIn "[your question]" (normalize_prompt_intent "ask about" "general" "Calm") = false :=
  ⟨by decide, by decide, by decide, by decide⟩

/-- C8 (amended): the first rule wins exactly when the
`\bask\b.*\babout\b\s+(.+)$` search succeeds — `ask` and `about` as whole
words with a non-empty remainder after the whitespace following `about` —
and then the instruction references the captured topic (stripped of
trailing `.!?`) and the placeholder `[your question]`; in particular
`ask about the lecture notes` yields the instruction referencing
`the lecture notes` and `[your question]`. -/
theorem C8_ask_about_rule :
    (∀ (m scn tn g : String),
      askAboutSearch (pyStrip (pyOrS m "")) = some g →
        normalize_prompt_intent m scn tn =
          "Draft a ready-to-send message the user will send. Ask about " ++ topicOf g ++
            ". If details are missing, use ONE placeholder [your question]. " ++
            "Do NOT ask the user what they want.") ∧
    (pyIn "the lecture notes"
        (normalize_prompt_intent "ask about the lecture notes" "general" "Calm") = true ∧
      pyIn "[your question]"
        (normalize_prompt_intent "ask about the lecture notes" "general" "Calm") = true ∧
      normalize_prompt_intent "ask about the lecture notes" "general" "Calm" =
        "Draft a ready-to-send message the user will send. Ask about the lecture notes. If details are missing, use ONE placeholder [your question]. Do NOT ask the user what they want.") := by
  constructor
  · intro m scn tn g h
    unfold normalize_prompt_intent
    dsimp only
    rw [h]
  · exact ⟨by decide, by decide, by decide⟩

/-- C8 witness: the rule applied at the concrete message
`ask about the lecture notes`, captured group `the lecture notes`. -/
theorem C8_ask_about_rule_witness :
    normalize_prompt_intent "ask about the lecture notes" "general" "Calm" =
      "Draft a ready-to-send message the user will send. Ask about " ++
        topicOf "the lecture notes" ++
        ". If details are missing, use ONE placeholder [your question]. " ++
        "Do NOT ask the user what they want." :=
  C8_ask_about_rule.1 "ask about the lecture notes" "general" "Calm" "the lecture notes"
    (by decide)

/-- C9: the Intent Classifier returns true exactly when the lowercased,
stripped message starts with one of the fixed starters or has at most 6
whitespace-separated tokens; `ask about the deadline` is an intention,
`Thanks so much for letting me know, I'll be there` is reported speech. -/
theorem C9_intent_classifier :
    (∀ m : String,
      looks_like_prompt_instruction m = true ↔
        ((∃ p ∈ instruction_starters, pyStartsWith (pyLower (pyStrip m)) p = true) ∨
          (pySplit (pyLower (pyStrip m))).length ≤ 6)) ∧
    looks_like_prompt_instruction "ask about the deadline" = true ∧
    looks_like_prompt_instruction "Thanks so much for letting me know, I'll be there" = false := by
  constructor
  · intro m
    have hOr : pyOrS m "" = m := by
      unfold pyOrS
      split <;> simp_all
    unfold looks_like_prompt_instruction
    rw [hOr]
    simp [List.any_eq_true]
  · exact ⟨by decide, by decide⟩

/-- C10: when a JSON strategy succeeds, `extract_json` returns the parsed
object unchanged and unvalidated — a record without a `reply` key, or with
more than 3 options, passes through; the non-empty-reply and
at-most-3-options guarantees are imposed afterwards by the handler's
trimming, filtering and truncation. -/
theorem C10_extractor_no_shape_enforcement :
    extract_json "\x7b\"foo\": \"bar\"\x7d" = Json.obj [("foo", Json.str "bar")] ∧
    jsonGetJ (extract_json "\x7b\"foo\": \"bar\"\x7d") "reply" = none ∧
    extract_json "\x7b\"reply\": \"ok\", \"options\": [\"a\", \"b\", \"c\", \"d\", \"e\"]\x7d" =
      Json.obj [("reply", Json.str "ok"),
        ("options", Json.arr [Json.str "a", Json.str "b", Json.str "c", Json.str "d",
          Json.str "e"])] ∧
    (∀ msg scn tn raw : String,
      pyStrip (processAfterText msg scn tn raw).reply ≠ "" ∧
        (processAfterText msg scn tn raw).options.length ≤ 3) ∧
    processAfterText "hi" "general" "Calm"
        "\x7b\"reply\": \"ok\", \"options\": [\"a\", \"b\", \"c\", \"d\", \"e\"]\x7d" =
      { reply := "ok", options := ["a", "b", "c"] } := by
  refine ⟨rfl, rfl, rfl, ?_, rfl⟩
  intro msg scn tn raw
  exact ⟨(processAfterText_shape msg scn tn raw).1, (processAfterText_shape msg scn tn raw).2.1⟩
